import Mathlib

/-!
Verification development for the Faculty_slot_booking repository.

The system of record is a Postgres database (Supabase migrations under
supabase/migrations/) together with two React pages that issue the data
calls (src/pages/BookingPage.tsx, src/pages/ScholarDashboard.tsx, and the
faculty dashboard component).  This file gives a shallow embedding of:

* the slot-generation trigger function
  public.generate_slots_from_availability()
  (final version in 20251101180000_fix_unique_constraint.sql),
* the faculty_slots / appointments / availability / slot_requests tables
  with their uniqueness constraints and row-level security policies,
* the booking flow handleBooking in BookingPage.tsx,
* the availability-creation flow handleAddAvailability in the faculty
  dashboard component,
* the listing flow fetchAvailableSlots in ScholarDashboard.tsx.

Modelling conventions:

* Calendar dates are integers (days); times of day are integers (minutes
  after midnight).  Postgres `TIME` arithmetic with an `INTERVAL` wraps
  modulo 24 hours (`time_pl_interval` reduces the sum modulo one day), so
  the embedding of `current_start + (d || ' minutes')::INTERVAL` is
  `(t + d) % 1440` with Euclidean remainder, matching Postgres for
  negative sums as well.
* The PL/pgSQL `WHILE` loop is embedded with explicit fuel counting the
  number of completed loop bodies; `none` means the loop does not finish
  within the given fuel (the loop has no bound of its own in the source).
* Row-level security is embedded as the row filters the policies impose,
  on reads (a SELECT returns only the rows visible to the caller) as well
  as on writes; an UPDATE that matches zero rows succeeds with no effect,
  as PostgREST reports no error in that case.
-/

namespace FacultySlotBooking

/-- Postgres `TIME + INTERVAL` arithmetic: the result is reduced modulo
24 hours (1440 minutes). -/
def addMinutes (t d : Int) : Int :=
  (t + d) % 1440

/-- `COALESCE(NEW.slot_duration, 30)` from
`generate_slots_from_availability`: the default 30 applies exactly when
the stored duration is NULL. -/
def slotDurationMinutes (d : Option Int) : Int :=
  d.getD 30

/-- The `WHILE current_start < NEW.end_time LOOP ... END LOOP` body of
`generate_slots_from_availability`, with fuel bounding the number of
completed loop bodies.  Each completed body emits the candidate slot
`(current_start, slot_end)` and advances the cursor to `slot_end`;
the loop exits (without consuming fuel) when the guard fails or when
`slot_end > NEW.end_time`.  `none` means the fuel was exhausted before
the loop exited. -/
def genAux (d e : Int) : Nat → Int → Option (List (Int × Int))
  | 0, cur =>
    if cur < e then
      if addMinutes cur d > e then some [] else none
    else some []
  | f + 1, cur =>
    if cur < e then
      if addMinutes cur d > e then some []
      else (genAux d e f (addMinutes cur d)).map
        (fun l => (cur, addMinutes cur d) :: l)
    else some []

/-- The candidate-slot sequence computed by the trigger function for a
window `[s, e)` with stored duration `dur`, within `fuel` loop bodies. -/
def generateSlots (dur : Option Int) (s e : Int) (fuel : Nat) :
    Option (List (Int × Int)) :=
  genAux (slotDurationMinutes dur) e fuel s

/-- Closed form used to state generation results: `n` contiguous slots of
length `d` starting at `s`. -/
def slotsFrom (s d : Int) : Nat → List (Int × Int)
  | 0 => []
  | n + 1 => (s, s + d) :: slotsFrom (s + d) d n

/-! ## Data model

Rows of the four tables involved in the claims, with identifiers as
natural numbers standing in for UUIDs. -/

/-- `faculty_slots.status` (CHECK constraint in
20251101154454_c035dc9d...sql). -/
inductive SlotStatus
  | available
  | booked
  | cancelled
  deriving DecidableEq, Repr

/-- `appointments.status` (CHECK constraint, same migration). -/
inductive ApptStatus
  | confirmed
  | cancelled
  | completed
  deriving DecidableEq, Repr

/-- A row of `public.faculty_slots`. -/
structure SlotRow where
  id : Nat
  facultyId : Nat
  date : Int
  startTime : Int
  endTime : Int
  status : SlotStatus
  availabilityId : Option Nat
  deriving DecidableEq, Repr

/-- A row of `public.appointments` (the fields the claims mention). -/
structure AppointmentRow where
  facultyId : Nat
  scholarId : Nat
  scholarName : String
  scholarEmail : String
  purpose : String
  slotId : Option Nat
  status : ApptStatus
  deriving DecidableEq, Repr

/-- A row of `public.availability`. -/
structure AvailRow where
  id : Nat
  facultyId : Nat
  date : Int
  startTime : Int
  endTime : Int
  slotDuration : Option Int
  deriving DecidableEq, Repr

/-- A row of `public.slot_requests`
(20251212100000_add_slot_requests_table.sql). -/
structure SlotRequestRow where
  scholarName : String
  empId : String
  registration : String
  meetingType : String
  notes : String
  deriving DecidableEq, Repr

/-- The slot table together with the id generator for fresh rows. -/
structure SlotStore where
  rows : List SlotRow
  nextId : Nat
  deriving DecidableEq, Repr

/-- Full database state used by the flows under verification. -/
structure DBState where
  availability : List AvailRow
  slots : SlotStore
  appointments : List AppointmentRow
  slotRequests : List SlotRequestRow
  deriving DecidableEq, Repr

/-- Authenticated caller roles (`public.app_role`). -/
inductive Role
  | scholar
  | faculty
  | admin
  deriving DecidableEq, Repr

/-- An authenticated caller: `auth.uid()` plus their `user_roles` row. -/
structure Caller where
  uid : Nat
  role : Role
  deriving DecidableEq, Repr

/-! ## Slot store -/

/-- The UNIQUE `(faculty_id, date, start_time, end_time)` key test on
`faculty_slots`
(constraint `faculty_slots_faculty_id_date_start_time_end_time_key`). -/
def slotKeyExists (rows : List SlotRow) (fid : Nat) (date s e : Int) : Bool :=
  rows.any fun r =>
    r.facultyId == fid && r.date == date && r.startTime == s && r.endTime == e

/-- One candidate insertion of the trigger loop: `INSERT ... VALUES (...)`
absorbing `unique_violation` silently (`EXCEPTION WHEN unique_violation
THEN NULL` in the final trigger version; `ON CONFLICT DO NOTHING` in the
earlier ones).  A duplicate key leaves the store, including the existing
row's status, untouched. -/
def insertSlotIfAbsent (store : SlotStore) (fid : Nat) (date : Int)
    (aid : Nat) (c : Int × Int) : SlotStore :=
  if slotKeyExists store.rows fid date c.1 c.2 then store
  else
    { rows := store.rows ++
        [{ id := store.nextId, facultyId := fid, date := date,
           startTime := c.1, endTime := c.2, status := .available,
           availabilityId := some aid }],
      nextId := store.nextId + 1 }

/-- The insertion phase of the trigger over the whole candidate list.
The loop's control flow (guard, exit test, cursor) never reads the slot
table, so the trigger is this fold over the pure candidate sequence. -/
def applyCandidates (store : SlotStore) (fid : Nat) (date : Int)
    (aid : Nat) (cands : List (Int × Int)) : SlotStore :=
  cands.foldl (fun st c => insertSlotIfAbsent st fid date aid c) store

/-! ## Availability creation -/

/-- The UNIQUE `(faculty_id, date, start_time)` key test on
`public.availability` (20251101154454_c035dc9d...sql). -/
def availKeyExists (rows : List AvailRow) (fid : Nat) (date s : Int) : Bool :=
  rows.any fun a =>
    a.facultyId == fid && a.date == date && a.startTime == s

/-- The client-side validation in `handleAddAvailability` (faculty
dashboard): `if (!date || !startTime || !endTime)` — only empty fields
are rejected. -/
def availabilityFormOk (dateStr startStr endStr : String) : Bool :=
  !(dateStr == "" || startStr == "" || endStr == "")

/-- Errors surfaced by the database layer. -/
inductive DBError
  | uniqueViolation
  deriving DecidableEq, Repr

/-- `INSERT INTO availability ...` together with the `AFTER INSERT`
trigger `generate_slots_trigger`.  A duplicate `(faculty_id, date,
start_time)` key fails with `unique_violation` before the trigger runs;
otherwise the row is inserted and the trigger populates `faculty_slots`.
`none` means the trigger loop did not finish within `fuel` bodies. -/
def createAvailability (st : DBState) (a : AvailRow) (fuel : Nat) :
    Option (DBState × Except DBError Unit) :=
  if availKeyExists st.availability a.facultyId a.date a.startTime then
    some (st, .error .uniqueViolation)
  else
    (generateSlots a.slotDuration a.startTime a.endTime fuel).map fun cands =>
      ({ st with
          availability := a :: st.availability,
          slots := applyCandidates st.slots a.facultyId a.date a.id cands },
        .ok ())

/-! ## Booking -/

/-- Whether some appointment row references slot `k` (the predicate of
the partial unique index `appointments_slot_id_unique_not_null` on
`appointments (slot_id) WHERE slot_id IS NOT NULL`,
20251210120000_fix_documents_policy_and_prevent_double_booking.sql). -/
def slotReferenced (appts : List AppointmentRow) (k : Nat) : Bool :=
  appts.any fun a => a.slotId == some k

/-- `INSERT INTO appointments ...` under the partial unique index: an
insert whose non-null `slot_id` is already referenced fails with a
uniqueness violation (Postgres error 23505); a null `slot_id` is never
constrained. -/
def insertAppointment (appts : List AppointmentRow) (row : AppointmentRow) :
    Except DBError (List AppointmentRow) :=
  match row.slotId with
  | some k =>
      if slotReferenced appts k then .error .uniqueViolation
      else .ok (row :: appts)
  | none => .ok (row :: appts)

/-- `SELECT ... FROM faculty_slots WHERE id = k` (maybeSingle). -/
def lookupSlot (rows : List SlotRow) (k : Nat) : Option SlotRow :=
  rows.find? fun r => r.id == k

/-- The row filter the RLS policies put on writes to `faculty_slots`:
"Admins can manage all slots" (`has_role(auth.uid(), 'admin')`) and
"Faculty can manage their own slots" (`auth.uid() = faculty_id`).
No policy lets any other authenticated user update a slot row. -/
def canManageSlot (c : Caller) (r : SlotRow) : Bool :=
  c.role == .admin || c.uid == r.facultyId

/-- `UPDATE faculty_slots SET status = newStatus WHERE id = k` issued by
caller `c`: RLS restricts the update to the rows `c` may manage, and an
update matching zero rows reports no error. -/
def updateSlotStatus (store : SlotStore) (c : Caller) (k : Nat)
    (newStatus : SlotStatus) : SlotStore :=
  { store with
    rows := store.rows.map fun r =>
      if r.id == k && canManageSlot c r then { r with status := newStatus }
      else r }

/-- The booking form state in `BookingPage.tsx`. -/
structure BookingForm where
  employeeId : String
  employeeName : String
  employeeEmail : String
  scholarName : String
  scholarId : String
  projectTitle : String
  meetingType : String
  finalReview : String
  deriving DecidableEq, Repr

/-- The required-field validation in `handleBooking`: every field must be
non-empty (truthy). -/
def formComplete (f : BookingForm) : Bool :=
  !(f.employeeId == "" || f.employeeName == "" || f.employeeEmail == "" ||
    f.scholarName == "" || f.scholarId == "" || f.projectTitle == "" ||
    f.meetingType == "" || f.finalReview == "")

/-- Failure outcomes of `handleBooking` as surfaced to the caller. -/
inductive BookError
  | missingFields
  | slotUnavailable
  | conflict
  deriving DecidableEq, Repr

/-- The `slot_requests` row built in `handleBooking` before the
appointment insert. -/
def mkSlotRequest (f : BookingForm) : SlotRequestRow :=
  { scholarName := f.scholarName,
    empId := f.employeeId,
    registration := f.scholarId,
    meetingType := f.meetingType,
    notes := "Project Title: " ++ f.projectTitle ++ ", Employee Name: " ++
      f.employeeName ++ ", Employee Email: " ++ f.employeeEmail ++
      ", Final Review: " ++ f.finalReview }

/-- The appointment row built in `handleBooking` for caller `c` claiming
slot `k`. -/
def bookRow (c : Caller) (k : Nat) (slot : SlotRow) (form : BookingForm) :
    AppointmentRow :=
  { facultyId := slot.facultyId, scholarId := c.uid,
    scholarName := form.scholarName,
    scholarEmail := form.employeeEmail,
    purpose := "Meeting Type: " ++ form.meetingType ++
      ", Final Review: " ++ form.finalReview,
    slotId := some k, status := .confirmed }

/-- `handleBooking` in `BookingPage.tsx`, caller `c` booking slot `k`:

1. required-field validation;
2. pre-check: re-read the slot and require `status = 'available'`
   (otherwise "Slot Unavailable");
3. insert the `slot_requests` row (its error is not checked in the
   source, and it is never rolled back);
4. insert the appointment referencing the slot; a 23505 uniqueness
   violation surfaces as the "just booked by someone else" conflict;
5. update the slot's status to `booked` — a separate statement, filtered
   by RLS, whose zero-row outcome is not an error.

Returns the resulting database state and the surfaced outcome. -/
def bookSlot (st : DBState) (c : Caller) (k : Nat) (form : BookingForm) :
    DBState × Except BookError Unit :=
  if ¬ formComplete form then (st, .error .missingFields)
  else
    match lookupSlot st.slots.rows k with
    | none => (st, .error .slotUnavailable)
    | some slot =>
      if slot.status ≠ .available then (st, .error .slotUnavailable)
      else
        let st1 := { st with slotRequests := mkSlotRequest form :: st.slotRequests }
        match insertAppointment st1.appointments (bookRow c k slot form) with
        | .error _ => (st1, .error .conflict)
        | .ok appts =>
            ({ st1 with
                appointments := appts,
                slots := updateSlotStatus st1.slots c k .booked },
              .ok ())

/-! ## Listing available slots -/

/-- The `ORDER BY date ASC, start_time ASC` contract. -/
def slotLe (a b : SlotRow) : Prop :=
  a.date < b.date ∨ (a.date = b.date ∧ a.startTime ≤ b.startTime)

instance : DecidableRel slotLe := fun a b => by
  unfold slotLe; infer_instance

instance : IsTotal SlotRow slotLe :=
  ⟨fun a b => by unfold slotLe; omega⟩

instance : IsTrans SlotRow slotLe :=
  ⟨fun a b c hab hbc => by unfold slotLe at *; omega⟩

/-- The rows of `appointments` a SELECT returns to caller `c` under RLS:
the policies are "Users can view their own appointments"
(`auth.uid() = scholar_id OR auth.uid() = faculty_id`) and "Admins can
view all appointments". -/
def visibleAppointments (c : Caller) (appts : List AppointmentRow) :
    List AppointmentRow :=
  appts.filter fun a =>
    c.role == .admin || a.scholarId == c.uid || a.facultyId == c.uid

/-- `fetchAvailableSlots` in `ScholarDashboard.tsx`, run by caller `c`:
select slots with `status = 'available'` and `date >= today` ordered by
date then start time (the ORDER BY is modelled by a correct sort; the
`faculty_slots` SELECT policy is `USING (true)`, so that read is
unrestricted), then drop every slot whose id appears as a non-null
`slot_id` of some appointment — but the appointments read runs under
RLS, so only the rows visible to `c` are consulted. -/
def fetchAvailableSlots (c : Caller) (slots : List SlotRow)
    (appts : List AppointmentRow) (today : Int) : List SlotRow :=
  let filtered := slots.filter fun s =>
    s.status == .available && decide (today ≤ s.date)
  let ordered := List.insertionSort slotLe filtered
  let bookedIds := (visibleAppointments c appts).filterMap (fun a => a.slotId)
  ordered.filter fun s => !(bookedIds.contains s.id)

/-! ## Invariants and fixtures -/

/-- The booking-exclusivity invariant of claim P3: the appointment table
never contains two non-cancelled rows referencing the same slot. -/
def atMostOnePerSlot (appts : List AppointmentRow) : Prop :=
  appts.Pairwise fun a b =>
    a.status ≠ .cancelled → b.status ≠ .cancelled →
    a.slotId.isSome = true → a.slotId ≠ b.slotId

instance (appts : List AppointmentRow) : Decidable (atMostOnePerSlot appts) := by
  unfold atMostOnePerSlot
  infer_instance

/-- Concrete fixtures used in counterexamples and witnesses. -/
def exSlot : SlotRow :=
  { id := 1, facultyId := 10, date := 20, startTime := 540, endTime := 570,
    status := .available, availabilityId := some 5 }

def exState : DBState :=
  { availability := [], slots := { rows := [exSlot], nextId := 2 },
    appointments := [], slotRequests := [] }

def exForm : BookingForm :=
  { employeeId := "E1", employeeName := "Ada", employeeEmail := "ada@uni",
    scholarName := "Sam", scholarId := "R1", projectTitle := "Thesis",
    meetingType := "dc1", finalReview := "no" }

def exScholar : Caller := { uid := 20, role := .scholar }

def exScholar2 : Caller := { uid := 21, role := .scholar }

/-- State after `exScholar` books slot 1 in `exState`. -/
def exStateBooked : DBState := (bookSlot exState exScholar 1 exForm).1

def exAvail : AvailRow :=
  { id := 7, facultyId := 10, date := 20, startTime := 540, endTime := 660,
    slotDuration := some 30 }

/-- An availability window with `start_time = end_time` (10:00–10:00). -/
def exAvailDegenerate : AvailRow :=
  { id := 8, facultyId := 10, date := 20, startTime := 600, endTime := 600,
    slotDuration := some 30 }

def exEmptyState : DBState :=
  { availability := [], slots := { rows := [], nextId := 0 },
    appointments := [], slotRequests := [] }

/-! ## Theorems -/

theorem slotsFrom_length (s d : Int) : ∀ n, (slotsFrom s d n).length = n := by
  intro n
  induction n generalizing s with
  | zero => rfl
  | succ n ih => simp [slotsFrom, ih]

/-- When no `TIME` wraparound can occur (`0 ≤ s` and `e + d ≤ 1440`), the
loop runs exactly `⌊(e − s) / d⌋` bodies and emits the contiguous slots of
length `d` starting at `s`. -/
theorem genAux_complete (d e : Int) (hd : 0 < d) (hw : e + d ≤ 1440) :
    ∀ (f : Nat) (s : Int), 0 ≤ s → ((e - s) / d).toNat ≤ f →
      genAux d e f s = some (slotsFrom s d ((e - s) / d).toNat) := by
  intro f
  induction f with
  | zero =>
    intro s hs hf
    have hn : ((e - s) / d).toNat = 0 := Nat.le_zero.mp hf
    rw [hn]
    by_cases hlt : s < e
    · have hsd : addMinutes s d = s + d := by
        have h1 : (0 : Int) ≤ s + d := by omega
        have h2 : s + d < 1440 := by omega
        simpa [addMinutes] using Int.emod_eq_of_lt h1 h2
      have hbig : s + d > e := by
        by_contra hle
        have h1 : d ≤ e - s := by omega
        have h2 : 1 ≤ (e - s) / d := by
          rw [Int.le_ediv_iff_mul_le hd]; omega
        omega
      simp [genAux, hlt, hsd, hbig, slotsFrom]
    · simp [genAux, hlt, slotsFrom]
  | succ f ih =>
    intro s hs hf
    by_cases hlt : s < e
    · have hsd : addMinutes s d = s + d := by
        have h1 : (0 : Int) ≤ s + d := by omega
        have h2 : s + d < 1440 := by omega
        simpa [addMinutes] using Int.emod_eq_of_lt h1 h2
      by_cases hbig : s + d > e
      · have h0 : (e - s) / d = 0 :=
          Int.ediv_eq_zero_of_lt (by omega) (by omega)
        simp [genAux, hlt, hsd, hbig, h0, slotsFrom]
      · have h1 : 1 ≤ (e - s) / d := by
          rw [Int.le_ediv_iff_mul_le hd]; omega
        have hstep : (e - (s + d)) / d = (e - s) / d - 1 := by
          have : e - (s + d) = (e - s) + (-1) * d := by ring
          rw [this, Int.add_mul_ediv_right _ _ (by omega : d ≠ 0)]
          omega
        have hnat : ((e - s) / d).toNat = ((e - (s + d)) / d).toNat + 1 := by
          omega
        have ihs := ih (s + d) (by omega) (by omega)
        simp [genAux, hlt, hsd, hbig, ihs, hnat, slotsFrom]
    · have h0 : (e - s) / d ≤ 0 := by
        have := Int.ediv_le_ediv hd (show e - s ≤ 0 by omega)
        simpa using this
      have hn : ((e - s) / d).toNat = 0 := by omega
      simp [genAux, hlt, hn, slotsFrom]

/-- Divergence witness for the wraparound bug: with `end_time = 23:59`
(minute 1439) and a 60-minute duration, once the cursor is a multiple of
60 inside the day, every computed `slot_end` is again strictly below
`end_time` (wrapping past midnight at 23:00), so the loop body always
runs and the loop never exits. -/
theorem genAux_wrap_diverges :
    ∀ (f : Nat) (cur : Int), 0 ≤ cur → cur ≤ 1380 → cur % 60 = 0 →
      genAux 60 1439 f cur = none := by
  intro f
  induction f with
  | zero =>
    intro cur h0 h1 h2
    have hlt : cur < 1439 := by omega
    have hnb : ¬ addMinutes cur 60 > 1439 := by
      have := Int.emod_lt_of_pos (cur + 60) (by omega : (0:Int) < 1440)
      simp only [addMinutes]
      omega
    simp [genAux, hlt, hnb]
  | succ f ih =>
    intro cur h0 h1 h2
    have hlt : cur < 1439 := by omega
    have hnb : ¬ addMinutes cur 60 > 1439 := by
      have := Int.emod_lt_of_pos (cur + 60) (by omega : (0:Int) < 1440)
      simp only [addMinutes]
      omega
    have hrec : genAux 60 1439 f (addMinutes cur 60) = none := by
      apply ih
      · have := Int.emod_nonneg (cur + 60) (by omega : (1440:Int) ≠ 0)
        simpa [addMinutes] using this
      · simp only [addMinutes]; omega
      · simp only [addMinutes]; omega
    simp [genAux, hlt, hnb, hrec]

/-- Claim C3 (code bug): the Slot Generator does NOT always produce
`⌊W / D⌋` slots inside the window.  For the availability window
23:00–23:59 (minutes 1380–1439) with a 60-minute duration, `⌊59 / 60⌋ = 0`
slots should be produced, but the first computed slot end wraps to 00:00
(minute 0), which is not `>` 23:59, so the trigger inserts the
out-of-window slot 23:00–00:00 and the loop never exits: no fuel bound
makes the loop finish. -/
theorem c3_generation_wraparound_bug :
    (∀ fuel : Nat, generateSlots (some 60) 1380 1439 fuel = none) ∧
    addMinutes 1380 60 = 0 ∧
    ¬ addMinutes 1380 60 > 1439 ∧
    ((1439 - 1380 : Int) / 60).toNat = 0 :=
  ⟨fun fuel => genAux_wrap_diverges fuel 1380 (by decide) (by decide) (by decide),
   by decide, by decide, by decide⟩

/-- Claim C5 (counterexample): a supplied slot duration `≤ 0` is NOT
replaced by the 30-minute default.  `COALESCE(NEW.slot_duration, 30)`
only replaces NULL: with a stored duration of 0 the effective duration is
0, and on the window 00:00–01:00 the generation loop never finishes
(every fuel bound is exhausted), whereas an explicit duration of 30
yields the two slots 00:00–00:30 and 00:30–01:00. -/
theorem c5_counterexample_zero_duration :
    slotDurationMinutes (some 0) = 0 ∧
    generateSlots (some 0) 0 60 5 = none ∧
    generateSlots (some 30) 0 60 5 = some [(0, 30), (30, 60)] :=
  ⟨rfl, by decide, by decide⟩

/-- Claim C5 (amended): the 30-minute default applies exactly when the
slot duration is unspecified (NULL); then the generator behaves
identically to an explicit duration of 30.  A supplied duration `≤ 0` is
used as given. -/
theorem c5_null_duration_defaults_to_30 (s e : Int) (fuel : Nat) :
    generateSlots none s e fuel = generateSlots (some 30) s e fuel := rfl

/-- Claim C10 (counterexample): the loop does not always terminate within
`⌊W / D⌋` completed bodies for a positive duration.  For the window
23:30–23:59 (minutes 1410–1439) with duration 30, `⌊29 / 30⌋ = 0`, yet
the loop is still running after 0 bodies — and after 48: the first slot
end wraps past midnight to 00:00 and the loop cycles through the whole
day without ever exiting. -/
theorem c10_counterexample_wraparound :
    ((1439 - 1410 : Int) / 30).toNat = 0 ∧
    generateSlots (some 30) 1410 1439 0 = none ∧
    generateSlots (some 30) 1410 1439 48 = none :=
  ⟨by decide, by decide, by decide⟩

/-- Claim C10 (amended): when additionally no `TIME` wraparound can occur
(`0 ≤ start` and `end + duration ≤ 24h`), the loop terminates within
`⌊(end − start) / duration⌋` completed bodies — the cursor advances by
exactly the (positive) effective duration each body — and emits exactly
that many contiguous slots. -/
theorem c10_termination_bound (dur : Option Int) (s e : Int)
    (hd : 0 < slotDurationMinutes dur) (hs : 0 ≤ s)
    (hw : e + slotDurationMinutes dur ≤ 1440) :
    generateSlots dur s e ((e - s) / slotDurationMinutes dur).toNat =
      some (slotsFrom s (slotDurationMinutes dur)
        ((e - s) / slotDurationMinutes dur).toNat) ∧
    (slotsFrom s (slotDurationMinutes dur)
        ((e - s) / slotDurationMinutes dur).toNat).length =
      ((e - s) / slotDurationMinutes dur).toNat :=
  ⟨genAux_complete (slotDurationMinutes dur) e hd hw _ s hs le_rfl,
   slotsFrom_length _ _ _⟩

/-- Witness for `c10_termination_bound` at the window 09:00–11:00 with a
30-minute duration. -/
theorem c10_termination_bound_witness :
    0 < slotDurationMinutes (some 30) ∧ (0 : Int) ≤ 540 ∧
    (660 : Int) + slotDurationMinutes (some 30) ≤ 1440 ∧
    generateSlots (some 30) 540 660
        (((660 : Int) - 540) / slotDurationMinutes (some 30)).toNat =
      some (slotsFrom 540 (slotDurationMinutes (some 30))
        (((660 : Int) - 540) / slotDurationMinutes (some 30)).toNat) :=
  ⟨by decide, by decide, by decide,
   (c10_termination_bound (some 30) 540 660 (by decide) (by decide)
     (by decide)).1⟩

/-- Claim C2 (code bug): the appointment insert and the slot status
update are NOT one atomic unit.  Concretely, when scholar 20 (neither an
admin nor the slot's owner, faculty 10) books the available slot 1, the
appointment insert succeeds and the flow reports success, but the
subsequent `UPDATE faculty_slots SET status = 'booked'` is filtered to
zero rows by the row-level security policies, so the slot's status
remains `available` while an appointment references it. -/
theorem c2_booking_not_atomic :
    (bookSlot exState exScholar 1 exForm).2 = .ok () ∧
    (lookupSlot (bookSlot exState exScholar 1 exForm).1.slots.rows 1).map
        SlotRow.status = some .available ∧
    slotReferenced (bookSlot exState exScholar 1 exForm).1.appointments 1 =
      true :=
  ⟨by rfl, by rfl, by rfl⟩

/-- Claim C4 (counterexample): submitting the very same availability
window a second time DOES raise an error.  The second `INSERT INTO
availability` hits the UNIQUE `(faculty_id, date, start_time)` key of the
availability table and fails with a uniqueness violation before the
slot-generation trigger runs. -/
theorem c4_counterexample_resubmission_errors :
    (createAvailability exEmptyState exAvail 10).map Prod.snd =
      some (.ok ()) ∧
    ((createAvailability exEmptyState exAvail 10).bind fun r =>
        (createAvailability r.1 exAvail 10).map Prod.snd) =
      some (.error DBError.uniqueViolation) :=
  ⟨by rfl, by rfl⟩

/-- Claim C8 (counterexample): an availability window with
`start_time = end_time` (10:00–10:00) passes the client-side validation
(which only rejects empty fields), and the insert succeeds with no
validation error; the generator then produces zero slots for it. -/
theorem c8_counterexample_start_eq_end_accepted :
    availabilityFormOk "2025-01-01" "10:00" "10:00" = true ∧
    (createAvailability exEmptyState exAvailDegenerate 5).map Prod.snd =
      some (.ok ()) ∧
    (createAvailability exEmptyState exAvailDegenerate 5).map
        (fun r => r.1.slots.rows.length) = some 0 :=
  ⟨by rfl, by rfl, by rfl⟩

/-! ### Booking-flow branch equations -/

theorem bookSlot_eq_missing (st : DBState) (c : Caller) (k : Nat)
    (form : BookingForm) (hform : formComplete form = false) :
    bookSlot st c k form = (st, .error .missingFields) := by
  unfold bookSlot
  rw [if_pos]
  simp [hform]

theorem bookSlot_eq_gone (st : DBState) (c : Caller) (k : Nat)
    (form : BookingForm) (hform : formComplete form = true)
    (hfind : lookupSlot st.slots.rows k = none) :
    bookSlot st c k form = (st, .error .slotUnavailable) := by
  unfold bookSlot
  rw [if_neg (by simp [hform]), hfind]

theorem bookSlot_eq_taken (st : DBState) (c : Caller) (k : Nat)
    (form : BookingForm) (hform : formComplete form = true)
    (slot : SlotRow) (hfind : lookupSlot st.slots.rows k = some slot)
    (hstat : slot.status ≠ SlotStatus.available) :
    bookSlot st c k form = (st, .error .slotUnavailable) := by
  unfold bookSlot
  rw [if_neg (by simp [hform]), hfind]
  dsimp only
  rw [if_pos hstat]

theorem bookSlot_eq_conflict (st : DBState) (c : Caller) (k : Nat)
    (form : BookingForm) (hform : formComplete form = true)
    (slot : SlotRow) (hfind : lookupSlot st.slots.rows k = some slot)
    (hstat : slot.status = SlotStatus.available)
    (href : slotReferenced st.appointments k = true) :
    bookSlot st c k form =
      ({ st with slotRequests := mkSlotRequest form :: st.slotRequests },
        .error .conflict) := by
  unfold bookSlot
  rw [if_neg (by simp [hform]), hfind]
  dsimp only
  rw [if_neg (by simp [hstat])]
  have hins : insertAppointment st.appointments (bookRow c k slot form) =
      .error .uniqueViolation := by
    simp [insertAppointment, bookRow, href]
  rw [hins]

theorem bookSlot_eq_ok (st : DBState) (c : Caller) (k : Nat)
    (form : BookingForm) (hform : formComplete form = true)
    (slot : SlotRow) (hfind : lookupSlot st.slots.rows k = some slot)
    (hstat : slot.status = SlotStatus.available)
    (href : slotReferenced st.appointments k = false) :
    bookSlot st c k form =
      ({ st with
          appointments := bookRow c k slot form :: st.appointments,
          slots := updateSlotStatus st.slots c k .booked,
          slotRequests := mkSlotRequest form :: st.slotRequests },
        .ok ()) := by
  unfold bookSlot
  rw [if_neg (by simp [hform]), hfind]
  dsimp only
  rw [if_neg (by simp [hstat])]
  have hins : insertAppointment st.appointments (bookRow c k slot form) =
      .ok (bookRow c k slot form :: st.appointments) := by
    simp [insertAppointment, bookRow, href]
  rw [hins]

/-- Every path of `bookSlot` that does not return success leaves the
appointment table and the slot table exactly as they were. -/
theorem bookSlot_frame_or_ok (st : DBState) (c : Caller) (k : Nat)
    (form : BookingForm) :
    ((bookSlot st c k form).1.appointments = st.appointments ∧
      (bookSlot st c k form).1.slots = st.slots) ∨
    (bookSlot st c k form).2 = .ok () := by
  unfold bookSlot
  split
  · left; exact ⟨rfl, rfl⟩
  · split
    · left; exact ⟨rfl, rfl⟩
    · split
      · left; exact ⟨rfl, rfl⟩
      · dsimp only
        split
        · left; exact ⟨rfl, rfl⟩
        · right; rfl

/-- Claim C1: booking exclusivity is enforced by the partial unique index
on non-null appointment slot references.  For a complete form, (i) every
`bookSlot` outcome preserves the never-two-non-cancelled-rows-per-slot
invariant; (ii) a successful booking leaves the slot referenced, so (iii)
every later attempt against a referenced slot fails (with the pre-check
or the conflict error); and (iv) even when the slot's own status is still
`available` — the pre-check passes — the attempt fails with the
uniqueness-violation conflict: the constraint, not application logic, is
what rejects it. -/
theorem c1_at_most_one_booking (st : DBState) (c : Caller) (k : Nat)
    (form : BookingForm) (hform : formComplete form = true)
    (hinv : atMostOnePerSlot st.appointments) :
    atMostOnePerSlot (bookSlot st c k form).1.appointments ∧
    ((bookSlot st c k form).2 = .ok () →
      slotReferenced (bookSlot st c k form).1.appointments k = true) ∧
    (slotReferenced st.appointments k = true →
      ((bookSlot st c k form).2 = .error .slotUnavailable ∨
       (bookSlot st c k form).2 = .error .conflict)) ∧
    (slotReferenced st.appointments k = true →
      (lookupSlot st.slots.rows k).map SlotRow.status = some .available →
      (bookSlot st c k form).2 = .error .conflict) := by
  cases hfind : lookupSlot st.slots.rows k with
  | none =>
      rw [bookSlot_eq_gone st c k form hform hfind]
      refine ⟨hinv, ?_, ?_, ?_⟩
      · intro h; cases h
      · intro _; exact Or.inl rfl
      · intro _ hmap; simp at hmap
  | some slot =>
      by_cases hstat : slot.status = SlotStatus.available
      · cases href : slotReferenced st.appointments k with
        | true =>
            rw [bookSlot_eq_conflict st c k form hform slot hfind hstat href]
            refine ⟨hinv, ?_, ?_, ?_⟩
            · intro h; cases h
            · intro _; exact Or.inr rfl
            · intro _ _; rfl
        | false =>
            rw [bookSlot_eq_ok st c k form hform slot hfind hstat href]
            have hall : ∀ a ∈ st.appointments, ¬ a.slotId = some k := by
              simpa [slotReferenced] using href
            refine ⟨?_, ?_, ?_, ?_⟩
            · exact List.Pairwise.cons
                (fun b hb _ _ _ hEq => hall b hb hEq.symm) hinv
            · intro _; simp [slotReferenced, bookRow]
            · intro h; cases h
            · intro h; cases h
      · rw [bookSlot_eq_taken st c k form hform slot hfind hstat]
        refine ⟨hinv, ?_, ?_, ?_⟩
        · intro h; cases h
        · intro _; exact Or.inl rfl
        · intro _ hmap
          simp at hmap
          exact absurd hmap hstat

/-- Witness for `c1_at_most_one_booking`: after scholar 20 booked slot 1,
scholar 21's attempt against the same slot — whose status is still
`available`, so the pre-check passes — fails with the conflict error, and
the invariant still holds. -/
theorem c1_at_most_one_booking_witness :
    (bookSlot exStateBooked exScholar2 1 exForm).2 = .error .conflict ∧
    atMostOnePerSlot (bookSlot exStateBooked exScholar2 1 exForm).1.appointments :=
  have h := c1_at_most_one_booking exStateBooked exScholar2 1 exForm
    (by rfl) (by decide)
  ⟨h.2.2.2 (by rfl) (by rfl), h.1⟩

/-- Claim C6: a `bookSlot` call that fails with the booking conflict
creates no appointment row and leaves the slot table — in particular the
target slot's status — unchanged; the conflict is surfaced to the
caller. -/
theorem c6_conflict_aborts_cleanly (st : DBState) (c : Caller) (k : Nat)
    (form : BookingForm)
    (h : (bookSlot st c k form).2 = .error .conflict) :
    (bookSlot st c k form).1.appointments = st.appointments ∧
    (bookSlot st c k form).1.slots = st.slots := by
  rcases bookSlot_frame_or_ok st c k form with hfr | hok
  · exact hfr
  · rw [hok] at h; cases h

/-- Witness for `c6_conflict_aborts_cleanly` at the conflicting second
booking of slot 1. -/
theorem c6_conflict_aborts_cleanly_witness :
    (bookSlot exStateBooked exScholar2 1 exForm).1.appointments =
      exStateBooked.appointments ∧
    (bookSlot exStateBooked exScholar2 1 exForm).1.slots =
      exStateBooked.slots :=
  c6_conflict_aborts_cleanly exStateBooked exScholar2 1 exForm (by rfl)

/-- Claim C9: whenever the availability pre-check passes (the slot exists
with status `available`), `handleBooking` first inserts a `slot_requests`
row, and that row is present in the final state on every outcome —
including the conflict failure of the appointment insert; nothing ever
rolls it back. -/
theorem c9_slot_request_persists (st : DBState) (c : Caller) (k : Nat)
    (form : BookingForm) (hform : formComplete form = true)
    (hpre : (lookupSlot st.slots.rows k).map SlotRow.status =
      some SlotStatus.available) :
    (bookSlot st c k form).1.slotRequests =
      mkSlotRequest form :: st.slotRequests := by
  cases hfind : lookupSlot st.slots.rows k with
  | none => rw [hfind] at hpre; cases hpre
  | some slot =>
      rw [hfind] at hpre
      have hstat : slot.status = SlotStatus.available := by simpa using hpre
      cases href : slotReferenced st.appointments k with
      | true =>
          rw [bookSlot_eq_conflict st c k form hform slot hfind hstat href]
      | false =>
          rw [bookSlot_eq_ok st c k form hform slot hfind hstat href]

/-- Witness for `c9_slot_request_persists` at a booking attempt that
fails with a conflict: the `slot_requests` row is still added. -/
theorem c9_slot_request_persists_witness :
    (bookSlot exStateBooked exScholar2 1 exForm).1.slotRequests =
      mkSlotRequest exForm :: exStateBooked.slotRequests :=
  c9_slot_request_persists exStateBooked exScholar2 1 exForm (by rfl) (by rfl)

/-- Claim C7 (counterexample): the result CAN contain a slot referenced
by an existing non-null appointment.  After scholar 20 booked slot 1
(owned by faculty 10), the appointment referencing slot 1 exists — but
the slot's status is still `available` (the RLS-filtered status update,
see C2), and when scholar 21 lists available slots, the appointments
read under RLS returns none of scholar 20's rows, so slot 1 is returned
to scholar 21 despite being referenced. -/
theorem c7_counterexample_rls_hides_other_bookings :
    slotReferenced exStateBooked.appointments 1 = true ∧
    (lookupSlot exStateBooked.slots.rows 1).map SlotRow.status =
      some .available ∧
    visibleAppointments exScholar2 exStateBooked.appointments = [] ∧
    fetchAvailableSlots exScholar2 exStateBooked.slots.rows
      exStateBooked.appointments 20 = [exSlot] ∧
    exSlot.id = 1 :=
  ⟨by rfl, by rfl, by rfl, by rfl, rfl⟩

/-- Claim C7 (amended): `fetchAvailableSlots` returns a list sorted
ascending by date then start time, and every returned slot has status
`available`, date not in the past, and is referenced by no non-null
`slot_id` among the appointment rows VISIBLE to the caller under RLS
(their own rows as scholar or faculty party; all rows for admins).
Slots referenced only by other users' appointments can still appear. -/
theorem c7_list_available_slots (c : Caller) (slots : List SlotRow)
    (appts : List AppointmentRow) (today : Int) :
    List.Sorted slotLe (fetchAvailableSlots c slots appts today) ∧
    ∀ s ∈ fetchAvailableSlots c slots appts today,
      s.status = SlotStatus.available ∧ today ≤ s.date ∧
      ∀ a ∈ visibleAppointments c appts, a.slotId ≠ some s.id := by
  constructor
  · exact List.Pairwise.sublist (List.filter_sublist _)
      (List.sorted_insertionSort slotLe _)
  · intro s hs
    unfold fetchAvailableSlots at hs
    rw [List.mem_filter] at hs
    obtain ⟨hmem, hbook⟩ := hs
    have hmem2 : s ∈ slots.filter
        (fun r => r.status == SlotStatus.available && decide (today ≤ r.date)) :=
      (List.perm_insertionSort slotLe _).mem_iff.mp hmem
    rw [List.mem_filter] at hmem2
    obtain ⟨-, hcond⟩ := hmem2
    simp only [Bool.and_eq_true, beq_iff_eq, decide_eq_true_eq] at hcond
    refine ⟨hcond.1, hcond.2, ?_⟩
    intro a ha hEq
    have hmm : s.id ∈ (visibleAppointments c appts).filterMap
        (fun a => a.slotId) :=
      List.mem_filterMap.mpr ⟨a, ha, hEq⟩
    simp only [Bool.not_eq_true'] at hbook
    rw [List.contains_eq_any_beq] at hbook
    simp only [List.any_eq_false] at hbook
    have := hbook s.id hmm
    simp at this

/-- Witness for `c7_list_available_slots`: the available, current slot 1
is returned to scholar 20 with the guaranteed properties. -/
theorem c7_list_available_slots_witness :
    exSlot.status = SlotStatus.available ∧ (0 : Int) ≤ exSlot.date ∧
    ∀ a ∈ visibleAppointments exScholar ([] : List AppointmentRow),
      a.slotId ≠ some exSlot.id :=
  (c7_list_available_slots exScholar [exSlot] [] 0).2 exSlot (by decide)

/-! ### Idempotence of the slot-store insertion phase -/

theorem slotKeyExists_mono (store : SlotStore) (fid : Nat) (date : Int)
    (aid : Nat) (c c2 : Int × Int)
    (h : slotKeyExists store.rows fid date c.1 c.2 = true) :
    slotKeyExists (insertSlotIfAbsent store fid date aid c2).rows
      fid date c.1 c.2 = true := by
  unfold insertSlotIfAbsent
  split
  · exact h
  · simp only [slotKeyExists, List.any_append] at *
    simp [h]

theorem slotKeyExists_insert (store : SlotStore) (fid : Nat) (date : Int)
    (aid : Nat) (c : Int × Int) :
    slotKeyExists (insertSlotIfAbsent store fid date aid c).rows
      fid date c.1 c.2 = true := by
  unfold insertSlotIfAbsent
  split
  case isTrue h => exact h
  case isFalse h => simp [slotKeyExists, List.any_append]

theorem applyCandidates_mono (fid : Nat) (date : Int) (aid : Nat) :
    ∀ (cands : List (Int × Int)) (store : SlotStore) (c : Int × Int),
      slotKeyExists store.rows fid date c.1 c.2 = true →
      slotKeyExists (applyCandidates store fid date aid cands).rows
        fid date c.1 c.2 = true := by
  intro cands
  induction cands with
  | nil => intro store c h; exact h
  | cons hd tl ih =>
      intro store c h
      exact ih _ _ (slotKeyExists_mono store fid date aid c hd h)

theorem applyCandidates_keyExists (fid : Nat) (date : Int) (aid : Nat) :
    ∀ (cands : List (Int × Int)) (store : SlotStore) (c : Int × Int),
      c ∈ cands →
      slotKeyExists (applyCandidates store fid date aid cands).rows
        fid date c.1 c.2 = true := by
  intro cands
  induction cands with
  | nil => intro store c h; cases h
  | cons hd tl ih =>
      intro store c h
      rcases List.mem_cons.mp h with rfl | h
      · exact applyCandidates_mono fid date aid tl _ c
          (slotKeyExists_insert store fid date aid c)
      · exact ih _ c h

theorem insertSlotIfAbsent_of_present (store : SlotStore) (fid : Nat)
    (date : Int) (aid : Nat) (c : Int × Int)
    (h : slotKeyExists store.rows fid date c.1 c.2 = true) :
    insertSlotIfAbsent store fid date aid c = store := by
  unfold insertSlotIfAbsent
  simp [h]

theorem applyCandidates_of_all_present (fid : Nat) (date : Int) (aid : Nat) :
    ∀ (cands : List (Int × Int)) (store : SlotStore),
      (∀ c ∈ cands, slotKeyExists store.rows fid date c.1 c.2 = true) →
      applyCandidates store fid date aid cands = store := by
  intro cands
  induction cands with
  | nil => intro store _; rfl
  | cons hd tl ih =>
      intro store h
      have hhd := insertSlotIfAbsent_of_present store fid date aid hd
        (h hd (List.mem_cons_self hd tl))
      show applyCandidates (insertSlotIfAbsent store fid date aid hd)
          fid date aid tl = store
      rw [hhd]
      exact ih store fun c hc => h c (List.mem_cons_of_mem hd hc)

/-- Claim C4 (amended): the slot-level insertion is idempotent.  For any
candidate sequence produced by the generator, re-running the trigger's
insertion phase over the same candidates — even under a different source
availability id — is a no-op: every existing row (including its current
status) is left untouched, the row count is unchanged, and no error is
raised by the slot insertions.  (The resubmission of an identical window
is instead rejected at the availability table, before the trigger; see
the counterexample.) -/
theorem c4_slot_insertion_idempotent (dur : Option Int) (wstart wend : Int)
    (fuel : Nat) (cands : List (Int × Int)) (store : SlotStore) (fid : Nat)
    (date : Int) (aid aid2 : Nat)
    (_hgen : generateSlots dur wstart wend fuel = some cands) :
    applyCandidates (applyCandidates store fid date aid cands)
      fid date aid2 cands = applyCandidates store fid date aid cands := by
  apply applyCandidates_of_all_present
  intro c hc
  exact applyCandidates_keyExists fid date aid cands store c hc

/-- Witness for `c4_slot_insertion_idempotent` on the generator output of
a 09:00–11:00 window with 30-minute slots. -/
theorem c4_slot_insertion_idempotent_witness :
    generateSlots (some 30) 540 660 4 = some [(540, 570), (570, 600),
      (600, 630), (630, 660)] ∧
    applyCandidates (applyCandidates { rows := [], nextId := 0 } 10 20 7
        [(540, 570), (570, 600), (600, 630), (630, 660)]) 10 20 9
        [(540, 570), (570, 600), (600, 630), (630, 660)] =
      applyCandidates { rows := [], nextId := 0 } 10 20 7
        [(540, 570), (570, 600), (600, 630), (630, 660)] :=
  ⟨by decide,
   c4_slot_insertion_idempotent (some 30) 540 660 4 _
     { rows := [], nextId := 0 } 10 20 7 9 (by decide)⟩

/-- Claim C8 (amended): the client-side validation rejects exactly the
forms with a missing (empty) date, start or end field; a window with
`start ≥ end` is not rejected, and for such a window the generation loop
exits immediately with zero slots (its guard `current_start < end_time`
fails at once), so no slots arise from it. -/
theorem c8_only_missing_fields_rejected (dateStr startStr endStr : String)
    (dur wstart wend : Int) (fuel : Nat) (h : wend ≤ wstart) :
    (availabilityFormOk dateStr startStr endStr = false ↔
      (dateStr = "" ∨ startStr = "" ∨ endStr = "")) ∧
    genAux dur wend fuel wstart = some [] := by
  constructor
  · by_cases d1 : dateStr = "" <;> by_cases d2 : startStr = "" <;>
      by_cases d3 : endStr = "" <;> simp [availabilityFormOk, d1, d2, d3]
  · cases fuel with
    | zero => unfold genAux; rw [if_neg (by omega)]
    | succ f => unfold genAux; rw [if_neg (by omega)]

/-- Witness for `c8_only_missing_fields_rejected` at an empty end-time
field and the degenerate window 11:00–11:00. -/
theorem c8_only_missing_fields_rejected_witness :
    (660 : Int) ≤ 660 ∧
    (availabilityFormOk "2025-01-01" "10:00" "" = false ↔
      ("2025-01-01" = "" ∨ "10:00" = "" ∨ "" = "")) ∧
    genAux 30 660 5 660 = some [] :=
  ⟨by decide,
   (c8_only_missing_fields_rejected "2025-01-01" "10:00" "" 30 660 660 5
     (by decide)).1,
   (c8_only_missing_fields_rejected "2025-01-01" "10:00" "" 30 660 660 5
     (by decide)).2⟩

end FacultySlotBooking
